import Mathlib

/-!
Verification development for the `restream_io._schemas` display component.

The source file `src/cli/python/src/restream_io/_schemas.py` defines a single
attrs class `ChannelWithMeta` extending the base `Channel` schema (from the
external `pyrestream.schemas` module) with two string fields `title` and
`description`, and a `__str__` method rendering the record as a fixed
multi-line text block.  We embed the data model and the render operation
shallowly and prove the specification's claims about them.
-/

/-- Modelled from the spec: the base resource record `Channel` is defined in
the external `pyrestream.schemas` module (not part of the provided sources).
Its fields are taken from the spec's data model (§3): `id`, `display_name`,
`active`, `channel_url`, `channel_identifier`, `service_id`, `user_id`, all
strings except the boolean `active`. -/
structure Channel where
  id : String
  display_name : String
  active : Bool
  channel_url : String
  channel_identifier : String
  service_id : String
  user_id : String
deriving Repr, DecidableEq

/-- Embedding of the attrs class `ChannelWithMeta` (source lines 11-19):
inherits from `Channel` and adds the metadata fields `title` and
`description`. -/
structure ChannelWithMeta extends Channel where
  title : String
  description : String
deriving Repr, DecidableEq

/-- Embedding of the derived expression on source line 29:
`'Active' if self.active else 'Inactive'`. -/
def statusText (c : ChannelWithMeta) : String :=
  if c.active then "Active" else "Inactive"

/-- Embedding of `ChannelWithMeta.__str__` (source lines 21-34): the f-string
concatenation, literal for literal, field interpolation for field
interpolation. -/
def ChannelWithMeta.str (c : ChannelWithMeta) : String :=
  "Channel Information:\n" ++
  "  ID: " ++ c.id ++ "\n" ++
  "  Display Name: " ++ c.display_name ++ "\n" ++
  "  Title: " ++ c.title ++ "\n" ++
  "  Description: " ++ c.description ++ "\n" ++
  "  Status: " ++ statusText c ++ "\n" ++
  "  Channel URL: " ++ c.channel_url ++ "\n" ++
  "  Channel Identifier: " ++ c.channel_identifier ++ "\n" ++
  "  Service ID: " ++ c.service_id ++ "\n" ++
  "  User ID: " ++ c.user_id

/-- Modelled from the spec: the construction operation of the Display Record
Composer (§4.1) and its `CompositionError` (§7) are not in the provided
sources (only the attrs class itself is); per the spec, composition fails
with a `CompositionError` exactly when a required input is missing (null
base record, or missing metadata field). -/
inductive CompositionError where
  | missingInput
deriving Repr, DecidableEq

/-- Modelled from the spec: the construction operation (§4.1) takes a base
resource record and a metadata pair and produces the union of both field
sets; an absent (`none`) base record or metadata field fails with
`CompositionError`. -/
def compose (base : Option Channel) (title description : Option String) :
    Except CompositionError ChannelWithMeta :=
  match base, title, description with
  | some b, some t, some d => .ok { toChannel := b, title := t, description := d }
  | _, _, _ => .error .missingInput

/-- The class on source line 11 is declared with `@attrs.define`, whose
default is `frozen=False`; this flag records that choice. -/
def channelWithMeta_frozen : Bool := false

/-- Error raised by Python attribute assignment on a frozen attrs class
(`attrs.exceptions.FrozenInstanceError`). -/
inductive SetAttrError where
  | frozenInstanceError
deriving Repr, DecidableEq

/-- Embedding of the Python attribute assignment `record.title = v` on a
`ChannelWithMeta` instance: on a frozen attrs class it raises
`FrozenInstanceError`; on a non-frozen class (the case here, source
line 11) it succeeds and updates the field. -/
def setTitle (c : ChannelWithMeta) (v : String) : Except SetAttrError ChannelWithMeta :=
  if channelWithMeta_frozen then .error .frozenInstanceError
  else .ok { c with title := v }

/-- Splitting a character list on the newline character, mirroring the
spec's "split on newline" reading of the rendered output. -/
def splitLines : List Char → List (List Char)
  | [] => [[]]
  | c :: cs =>
    match splitLines cs with
    | [] => [[]]
    | l :: ls => if c = '\n' then [] :: l :: ls else (c :: l) :: ls

/-- Joining chunks with a separator: `joinWith s [a, b, c] = a ++ s ++ b ++ s ++ c`. -/
def joinWith (sep : List Char) : List (List Char) → List Char
  | [] => []
  | [x] => x
  | x :: y :: rest => x ++ sep ++ joinWith sep (y :: rest)

/-- The concrete base record of the spec's concrete scenario (§8). -/
def sampleChannel : Channel :=
  { id := "c1", display_name := "My Channel", active := true,
    channel_url := "https://x.tv/c1", channel_identifier := "c1-ext",
    service_id := "svc1", user_id := "u1" }

/-- The concrete extended record of the spec's concrete scenario (§8). -/
def sampleRecord : ChannelWithMeta :=
  { toChannel := sampleChannel, title := "Live Show", description := "Daily stream" }

/-- A record whose `title` contains a newline character. -/
def newlineRecord : ChannelWithMeta :=
  { toChannel := sampleChannel, title := "Live\nShow", description := "Daily stream" }

/-! ### Helper lemmas -/

theorem str_data (c : ChannelWithMeta) :
    (ChannelWithMeta.str c).data =
      joinWith ['\n']
        [ "Channel Information:".data,
          "  ID: ".data ++ c.id.data,
          "  Display Name: ".data ++ c.display_name.data,
          "  Title: ".data ++ c.title.data,
          "  Description: ".data ++ c.description.data,
          "  Status: ".data ++ (statusText c).data,
          "  Channel URL: ".data ++ c.channel_url.data,
          "  Channel Identifier: ".data ++ c.channel_identifier.data,
          "  Service ID: ".data ++ c.service_id.data,
          "  User ID: ".data ++ c.user_id.data ] := by
  simp only [ChannelWithMeta.str, String.data_append, joinWith, List.append_assoc]
  rfl

theorem splitLines_cons (c : Char) (cs : List Char) :
    splitLines (c :: cs) =
      match splitLines cs with
      | [] => [[]]
      | l :: ls => if c = '\n' then [] :: l :: ls else (c :: l) :: ls := rfl

theorem splitLines_ne_nil (xs : List Char) : splitLines xs ≠ [] := by
  cases xs with
  | nil => simp [splitLines]
  | cons c cs =>
    rw [splitLines_cons]
    cases splitLines cs with
    | nil => simp
    | cons l ls => by_cases hc : c = '\n' <;> simp [hc]

theorem splitLines_no_nl (xs : List Char) (h : '\n' ∉ xs) : splitLines xs = [xs] := by
  induction xs with
  | nil => rfl
  | cons c cs ih =>
    have hc : ¬ (c = '\n') := fun e => h (e ▸ List.mem_cons_self c cs)
    have hcs : '\n' ∉ cs := fun m => h (List.mem_cons_of_mem _ m)
    rw [splitLines_cons, ih hcs]
    simp [hc]

theorem splitLines_append (xs ys : List Char) (h : '\n' ∉ xs) :
    splitLines (xs ++ '\n' :: ys) = xs :: splitLines ys := by
  induction xs with
  | nil =>
    rw [List.nil_append, splitLines_cons]
    cases hy : splitLines ys with
    | nil => exact absurd hy (splitLines_ne_nil ys)
    | cons l ls => simp
  | cons c cs ih =>
    have hc : ¬ (c = '\n') := fun e => h (e ▸ List.mem_cons_self c cs)
    have hcs : '\n' ∉ cs := fun m => h (List.mem_cons_of_mem _ m)
    rw [List.cons_append, splitLines_cons, ih hcs]
    simp [hc]

theorem splitLines_joinWith (chunks : List (List Char))
    (hne : chunks ≠ []) (h : ∀ l ∈ chunks, '\n' ∉ l) :
    splitLines (joinWith ['\n'] chunks) = chunks := by
  induction chunks with
  | nil => exact absurd rfl hne
  | cons x rest ih =>
    cases rest with
    | nil => exact splitLines_no_nl x (h x (by simp))
    | cons y rs =>
      have hstep : joinWith ['\n'] (x :: y :: rs) = x ++ '\n' :: joinWith ['\n'] (y :: rs) := by
        simp [joinWith]
      rw [hstep, splitLines_append _ _ (h x (by simp)),
        ih (by simp) (fun l hl => h l (List.mem_cons_of_mem _ hl))]

theorem length_splitLines (xs : List Char) :
    (splitLines xs).length = xs.count '\n' + 1 := by
  induction xs with
  | nil => rfl
  | cons c cs ih =>
    rw [splitLines_cons]
    cases hy : splitLines cs with
    | nil => exact absurd hy (splitLines_ne_nil cs)
    | cons l ls =>
      rw [hy] at ih
      show (if c = '\n' then [] :: l :: ls else (c :: l) :: ls).length =
        List.count '\n' (c :: cs) + 1
      by_cases hc : c = '\n'
      · subst hc
        simp only [if_pos rfl, List.length_cons, List.count_cons, beq_self_eq_true,
          if_true] at ih ⊢
        omega
      · have hbeq : (c == '\n') = false := beq_eq_false_iff_ne.2 hc
        rw [if_neg hc]
        simp only [List.length_cons, List.count_cons, hbeq, Bool.false_eq_true,
          if_false] at ih ⊢
        omega

theorem no_nl_append {a b : List Char} (ha : '\n' ∉ a) (hb : '\n' ∉ b) :
    '\n' ∉ a ++ b := by
  intro m
  rcases List.mem_append.1 m with m | m
  · exact ha m
  · exact hb m

theorem no_nl_statusText (c : ChannelWithMeta) : '\n' ∉ (statusText c).data := by
  unfold statusText
  split <;> decide

/-! ### Claim theorems -/

/-- C1: the render operation returns the header line `Channel Information:`
followed by the nine label:value lines in the fixed order, lines separated
by a single newline and with no trailing newline (the lines are
intercalated with `"\n"`, not newline-terminated). -/
theorem spec_C1 (c : ChannelWithMeta) :
    ChannelWithMeta.str c =
      String.intercalate "\n"
        [ "Channel Information:",
          "  ID: " ++ c.id,
          "  Display Name: " ++ c.display_name,
          "  Title: " ++ c.title,
          "  Description: " ++ c.description,
          "  Status: " ++ statusText c,
          "  Channel URL: " ++ c.channel_url,
          "  Channel Identifier: " ++ c.channel_identifier,
          "  Service ID: " ++ c.service_id,
          "  User ID: " ++ c.user_id ] := by
  simp only [String.intercalate, String.intercalate.go]
  apply String.ext
  simp only [ChannelWithMeta.str, String.data_append, List.append_assoc]
  rfl

/-- C2: rendering the spec's concrete scenario record produces exactly the
string displayed in the spec. -/
theorem spec_C2 :
    ChannelWithMeta.str sampleRecord =
      "Channel Information:\n  ID: c1\n  Display Name: My Channel\n  Title: Live Show\n  Description: Daily stream\n  Status: Active\n  Channel URL: https://x.tv/c1\n  Channel Identifier: c1-ext\n  Service ID: svc1\n  User ID: u1" := by
  rfl

/-- C3: the rendered Status segment is `  Status: Active` iff `active` is
true and `  Status: Inactive` iff `active` is false; no other status text
exists, and the segment occurs in the rendered output followed by a
newline. -/
theorem spec_C3 (c : ChannelWithMeta) :
    (("  Status: " ++ statusText c = "  Status: Active") ↔ c.active = true) ∧
    (("  Status: " ++ statusText c = "  Status: Inactive") ↔ c.active = false) ∧
    (statusText c = "Active" ∨ statusText c = "Inactive") ∧
    (∃ p q : List Char,
      (ChannelWithMeta.str c).data =
        p ++ ("  Status: " ++ statusText c).data ++ '\n' :: q) := by
  refine ⟨?_, ?_, ?_, ?_⟩
  · cases h : c.active <;> simp [statusText, h]
  · cases h : c.active <;> simp [statusText, h]
  · cases h : c.active <;> simp [statusText, h]
  · refine ⟨("Channel Information:\n" ++ "  ID: " ++ c.id ++ "\n" ++
      "  Display Name: " ++ c.display_name ++ "\n" ++ "  Title: " ++ c.title ++ "\n" ++
      "  Description: " ++ c.description ++ "\n").data,
      ("  Channel URL: " ++ c.channel_url ++ "\n" ++
      "  Channel Identifier: " ++ c.channel_identifier ++ "\n" ++
      "  Service ID: " ++ c.service_id ++ "\n" ++ "  User ID: " ++ c.user_id).data, ?_⟩
    simp only [ChannelWithMeta.str, String.data_append, List.append_assoc]
    rfl

set_option maxRecDepth 10000 in
/-- C4 counterexample: the claim quantifies over arbitrary strings, but a
`title` containing a newline character makes the rendered output split
into 11 lines rather than the claimed header plus exactly 9. -/
theorem spec_C4_counterexample :
    (splitLines (ChannelWithMeta.str newlineRecord).data).length = 11 ∧
    (splitLines (ChannelWithMeta.str newlineRecord).data).length ≠ 10 := by
  constructor <;> decide

/-- C4 (amended): for every record whose eight string fields contain no
newline character, the rendered output split on newline is the header line
followed by exactly 9 lines, each beginning with the corresponding fixed
label, in the fixed order. -/
theorem spec_C4 (c : ChannelWithMeta)
    (hid : '\n' ∉ c.id.data) (hdn : '\n' ∉ c.display_name.data)
    (hti : '\n' ∉ c.title.data) (hde : '\n' ∉ c.description.data)
    (hcu : '\n' ∉ c.channel_url.data) (hci : '\n' ∉ c.channel_identifier.data)
    (hsi : '\n' ∉ c.service_id.data) (hui : '\n' ∉ c.user_id.data) :
    ∃ ls : List (List Char),
      splitLines (ChannelWithMeta.str c).data = "Channel Information:".data :: ls ∧
      ls.length = 9 ∧
      List.Forall₂ (fun lab line => lab <+: line)
        [ "  ID: ".data, "  Display Name: ".data, "  Title: ".data,
          "  Description: ".data, "  Status: ".data, "  Channel URL: ".data,
          "  Channel Identifier: ".data, "  Service ID: ".data, "  User ID: ".data ]
        ls := by
  refine ⟨[ "  ID: ".data ++ c.id.data,
    "  Display Name: ".data ++ c.display_name.data,
    "  Title: ".data ++ c.title.data,
    "  Description: ".data ++ c.description.data,
    "  Status: ".data ++ (statusText c).data,
    "  Channel URL: ".data ++ c.channel_url.data,
    "  Channel Identifier: ".data ++ c.channel_identifier.data,
    "  Service ID: ".data ++ c.service_id.data,
    "  User ID: ".data ++ c.user_id.data ], ?_, rfl, ?_⟩
  · rw [str_data, splitLines_joinWith]
    · simp
    · intro l hl
      simp only [List.mem_cons, List.not_mem_nil, or_false] at hl
      rcases hl with h | h | h | h | h | h | h | h | h | h <;> subst h
      · decide
      · exact no_nl_append (by decide) hid
      · exact no_nl_append (by decide) hdn
      · exact no_nl_append (by decide) hti
      · exact no_nl_append (by decide) hde
      · exact no_nl_append (by decide) (no_nl_statusText c)
      · exact no_nl_append (by decide) hcu
      · exact no_nl_append (by decide) hci
      · exact no_nl_append (by decide) hsi
      · exact no_nl_append (by decide) hui
  · refine List.Forall₂.cons ⟨c.id.data, rfl⟩ ?_
    refine List.Forall₂.cons ⟨c.display_name.data, rfl⟩ ?_
    refine List.Forall₂.cons ⟨c.title.data, rfl⟩ ?_
    refine List.Forall₂.cons ⟨c.description.data, rfl⟩ ?_
    refine List.Forall₂.cons ⟨(statusText c).data, rfl⟩ ?_
    refine List.Forall₂.cons ⟨c.channel_url.data, rfl⟩ ?_
    refine List.Forall₂.cons ⟨c.channel_identifier.data, rfl⟩ ?_
    refine List.Forall₂.cons ⟨c.service_id.data, rfl⟩ ?_
    exact List.Forall₂.cons ⟨c.user_id.data, rfl⟩ List.Forall₂.nil

/-- C4 witness: the amended statement instantiated at the spec's concrete
scenario record, whose fields contain no newline. -/
theorem spec_C4_witness :
    ∃ ls : List (List Char),
      splitLines (ChannelWithMeta.str sampleRecord).data =
        "Channel Information:".data :: ls ∧
      ls.length = 9 ∧
      List.Forall₂ (fun lab line => lab <+: line)
        [ "  ID: ".data, "  Display Name: ".data, "  Title: ".data,
          "  Description: ".data, "  Status: ".data, "  Channel URL: ".data,
          "  Channel Identifier: ".data, "  Service ID: ".data, "  User ID: ".data ]
        ls :=
  spec_C4 sampleRecord (by decide) (by decide) (by decide) (by decide)
    (by decide) (by decide) (by decide) (by decide)

/-- C5: rendering is deterministic — two records with equal corresponding
fields render to identical strings; the output depends on nothing but the
record's fields. -/
theorem spec_C5 (a b : ChannelWithMeta)
    (h : a.id = b.id ∧ a.display_name = b.display_name ∧ a.active = b.active ∧
      a.channel_url = b.channel_url ∧ a.channel_identifier = b.channel_identifier ∧
      a.service_id = b.service_id ∧ a.user_id = b.user_id ∧
      a.title = b.title ∧ a.description = b.description) :
    ChannelWithMeta.str a = ChannelWithMeta.str b := by
  obtain ⟨⟨ai, ad, aa, au, ac, as, aus⟩, at1, ad1⟩ := a
  obtain ⟨⟨bi, bd, ba, bu, bc, bs, bus⟩, bt1, bd1⟩ := b
  simp only [ChannelWithMeta.str, statusText] at *
  obtain ⟨h1, h2, h3, h4, h5, h6, h7, h8, h9⟩ := h
  subst h1; subst h2; subst h3; subst h4; subst h5
  subst h6; subst h7; subst h8; subst h9
  rfl

/-- C5 witness: determinism instantiated at the concrete scenario record. -/
theorem spec_C5_witness :
    ChannelWithMeta.str sampleRecord = ChannelWithMeta.str sampleRecord :=
  spec_C5 sampleRecord sampleRecord
    ⟨rfl, rfl, rfl, rfl, rfl, rfl, rfl, rfl, rfl⟩

/-- C6: composition fails with a `CompositionError` exactly when the base
record or a metadata field is absent; empty-string (present) metadata
composes successfully, and the rendered output of such a record contains
the line `  Title: ` with an empty value. -/
theorem spec_C6 :
    (∀ (base : Option Channel) (t d : Option String),
      (∃ e, compose base t d = .error e) ↔ (base = none ∨ t = none ∨ d = none)) ∧
    (∀ b : Channel, compose (some b) (some "") (some "") =
      .ok { toChannel := b, title := "", description := "" }) ∧
    (∀ b : Channel, ∃ p q : List Char,
      (ChannelWithMeta.str
        { toChannel := b, title := "", description := "" }).data =
        p ++ '\n' :: "  Title: ".data ++ '\n' :: q) := by
  refine ⟨?_, fun _ => rfl, ?_⟩
  · intro base t d
    rcases base with _ | b <;> rcases t with _ | tv <;> rcases d with _ | dv <;>
      simp [compose] <;>
      exact ⟨CompositionError.missingInput, trivial⟩
  · intro b
    refine ⟨("Channel Information:\n" ++ "  ID: " ++ b.id ++ "\n" ++
      "  Display Name: " ++ b.display_name).data,
      ("  Description: " ++ "\n" ++
      "  Status: " ++ statusText { toChannel := b, title := "", description := "" } ++ "\n" ++
      "  Channel URL: " ++ b.channel_url ++ "\n" ++
      "  Channel Identifier: " ++ b.channel_identifier ++ "\n" ++
      "  Service ID: " ++ b.service_id ++ "\n" ++ "  User ID: " ++ b.user_id).data, ?_⟩
    simp only [ChannelWithMeta.str, String.data_append, List.append_assoc]
    rfl

/-- C7: rendering never fails on a valid record — the render operation is a
total function (it has no error branch in the source and is embedded as a
total Lean function), and its result is always a nonempty string beginning
with the header. -/
theorem spec_C7 : ∀ c : ChannelWithMeta,
    ChannelWithMeta.str c ≠ "" ∧
    "Channel Information:".data <+: (ChannelWithMeta.str c).data := by
  intro c
  have hpre : "Channel Information:".data <+: (ChannelWithMeta.str c).data := by
    rw [str_data]
    simp only [joinWith, List.append_assoc]
    exact ⟨_, rfl⟩
  refine ⟨?_, hpre⟩
  intro h
  rw [h] at hpre
  obtain ⟨t, ht⟩ := hpre
  simp at ht

/-- C8 counterexample: the claim states that no field of a constructed
record can be reassigned, but the class is declared with `attrs.define`
(not frozen), so attribute assignment succeeds and changes the field. -/
theorem spec_C8_counterexample :
    setTitle sampleRecord "changed" =
      .ok { sampleRecord with title := "changed" } ∧
    ({ sampleRecord with title := "changed" } : ChannelWithMeta).title ≠
      sampleRecord.title := by
  constructor
  · rfl
  · decide

/-- C8 (amended): the component's own operations never mutate a record —
construction stores exactly the supplied values and rendering is a pure
function of the fields — but the class is not frozen, so Python attribute
assignment on a constructed record succeeds and yields the updated field
value rather than being prevented. -/
theorem spec_C8 :
    channelWithMeta_frozen = false ∧
    (∀ (c : ChannelWithMeta) (v : String),
      setTitle c v = .ok { c with title := v }) ∧
    (∀ (b : Channel) (t d : String),
      ({ toChannel := b, title := t, description := d } : ChannelWithMeta).title = t ∧
      ({ toChannel := b, title := t, description := d } : ChannelWithMeta).description = d ∧
      ({ toChannel := b, title := t, description := d } : ChannelWithMeta).toChannel = b) :=
  ⟨rfl, fun _ _ => rfl, fun _ _ _ => ⟨rfl, rfl, rfl⟩⟩

/-- C9: the composed record is exactly the union of the two field sets —
every base field is carried over unchanged and the metadata pair is stored
unchanged, with no validation or transformation. -/
theorem spec_C9 : ∀ (b : Channel) (t d : String),
    ∃ r : ChannelWithMeta, compose (some b) (some t) (some d) = .ok r ∧
      r.id = b.id ∧ r.display_name = b.display_name ∧ r.active = b.active ∧
      r.channel_url = b.channel_url ∧ r.channel_identifier = b.channel_identifier ∧
      r.service_id = b.service_id ∧ r.user_id = b.user_id ∧
      r.title = t ∧ r.description = d :=
  fun b t d =>
    ⟨{ toChannel := b, title := t, description := d },
      rfl, rfl, rfl, rfl, rfl, rfl, rfl, rfl, rfl, rfl⟩

/-- C10: field values are interpolated verbatim — each of the nine values
(`active` rendered via `statusText`) appears as a literal substring of the
rendered output immediately after its label — and a newline inside a field
value survives intact, so the output then splits into more than the
template's 10 lines. -/
theorem spec_C10 :
    (∀ c : ChannelWithMeta,
      (∃ p q, (ChannelWithMeta.str c).data = p ++ "  ID: ".data ++ c.id.data ++ q) ∧
      (∃ p q, (ChannelWithMeta.str c).data =
        p ++ "  Display Name: ".data ++ c.display_name.data ++ q) ∧
      (∃ p q, (ChannelWithMeta.str c).data = p ++ "  Title: ".data ++ c.title.data ++ q) ∧
      (∃ p q, (ChannelWithMeta.str c).data =
        p ++ "  Description: ".data ++ c.description.data ++ q) ∧
      (∃ p q, (ChannelWithMeta.str c).data =
        p ++ "  Status: ".data ++ (statusText c).data ++ q) ∧
      (∃ p q, (ChannelWithMeta.str c).data =
        p ++ "  Channel URL: ".data ++ c.channel_url.data ++ q) ∧
      (∃ p q, (ChannelWithMeta.str c).data =
        p ++ "  Channel Identifier: ".data ++ c.channel_identifier.data ++ q) ∧
      (∃ p q, (ChannelWithMeta.str c).data =
        p ++ "  Service ID: ".data ++ c.service_id.data ++ q) ∧
      (∃ p q, (ChannelWithMeta.str c).data =
        p ++ "  User ID: ".data ++ c.user_id.data ++ q)) ∧
    (∀ c : ChannelWithMeta, '\n' ∈ c.title.data →
      10 < (splitLines (ChannelWithMeta.str c).data).length) := by
  constructor
  · intro c
    refine ⟨⟨("Channel Information:\n").data,
        ("\n" ++ "  Display Name: " ++ c.display_name ++ "\n" ++ "  Title: " ++ c.title ++
          "\n" ++ "  Description: " ++ c.description ++ "\n" ++ "  Status: " ++
          statusText c ++ "\n" ++ "  Channel URL: " ++ c.channel_url ++ "\n" ++
          "  Channel Identifier: " ++ c.channel_identifier ++ "\n" ++ "  Service ID: " ++
          c.service_id ++ "\n" ++ "  User ID: " ++ c.user_id).data, ?_⟩,
      ⟨("Channel Information:\n" ++ "  ID: " ++ c.id ++ "\n").data,
        ("\n" ++ "  Title: " ++ c.title ++ "\n" ++ "  Description: " ++ c.description ++
          "\n" ++ "  Status: " ++ statusText c ++ "\n" ++ "  Channel URL: " ++
          c.channel_url ++ "\n" ++ "  Channel Identifier: " ++ c.channel_identifier ++
          "\n" ++ "  Service ID: " ++ c.service_id ++ "\n" ++ "  User ID: " ++
          c.user_id).data, ?_⟩,
      ⟨("Channel Information:\n" ++ "  ID: " ++ c.id ++ "\n" ++ "  Display Name: " ++
          c.display_name ++ "\n").data,
        ("\n" ++ "  Description: " ++ c.description ++ "\n" ++ "  Status: " ++
          statusText c ++ "\n" ++ "  Channel URL: " ++ c.channel_url ++ "\n" ++
          "  Channel Identifier: " ++ c.channel_identifier ++ "\n" ++ "  Service ID: " ++
          c.service_id ++ "\n" ++ "  User ID: " ++ c.user_id).data, ?_⟩,
      ⟨("Channel Information:\n" ++ "  ID: " ++ c.id ++ "\n" ++ "  Display Name: " ++
          c.display_name ++ "\n" ++ "  Title: " ++ c.title ++ "\n").data,
        ("\n" ++ "  Status: " ++ statusText c ++ "\n" ++ "  Channel URL: " ++
          c.channel_url ++ "\n" ++ "  Channel Identifier: " ++ c.channel_identifier ++
          "\n" ++ "  Service ID: " ++ c.service_id ++ "\n" ++ "  User ID: " ++
          c.user_id).data, ?_⟩,
      ⟨("Channel Information:\n" ++ "  ID: " ++ c.id ++ "\n" ++ "  Display Name: " ++
          c.display_name ++ "\n" ++ "  Title: " ++ c.title ++ "\n" ++ "  Description: " ++
          c.description ++ "\n").data,
        ("\n" ++ "  Channel URL: " ++ c.channel_url ++ "\n" ++ "  Channel Identifier: " ++
          c.channel_identifier ++ "\n" ++ "  Service ID: " ++ c.service_id ++ "\n" ++
          "  User ID: " ++ c.user_id).data, ?_⟩,
      ⟨("Channel Information:\n" ++ "  ID: " ++ c.id ++ "\n" ++ "  Display Name: " ++
          c.display_name ++ "\n" ++ "  Title: " ++ c.title ++ "\n" ++ "  Description: " ++
          c.description ++ "\n" ++ "  Status: " ++ statusText c ++ "\n").data,
        ("\n" ++ "  Channel Identifier: " ++ c.channel_identifier ++ "\n" ++
          "  Service ID: " ++ c.service_id ++ "\n" ++ "  User ID: " ++ c.user_id).data, ?_⟩,
      ⟨("Channel Information:\n" ++ "  ID: " ++ c.id ++ "\n" ++ "  Display Name: " ++
          c.display_name ++ "\n" ++ "  Title: " ++ c.title ++ "\n" ++ "  Description: " ++
          c.description ++ "\n" ++ "  Status: " ++ statusText c ++ "\n" ++
          "  Channel URL: " ++ c.channel_url ++ "\n").data,
        ("\n" ++ "  Service ID: " ++ c.service_id ++ "\n" ++ "  User ID: " ++
          c.user_id).data, ?_⟩,
      ⟨("Channel Information:\n" ++ "  ID: " ++ c.id ++ "\n" ++ "  Display Name: " ++
          c.display_name ++ "\n" ++ "  Title: " ++ c.title ++ "\n" ++ "  Description: " ++
          c.description ++ "\n" ++ "  Status: " ++ statusText c ++ "\n" ++
          "  Channel URL: " ++ c.channel_url ++ "\n" ++ "  Channel Identifier: " ++
          c.channel_identifier ++ "\n").data,
        ("\n" ++ "  User ID: " ++ c.user_id).data, ?_⟩,
      ⟨("Channel Information:\n" ++ "  ID: " ++ c.id ++ "\n" ++ "  Display Name: " ++
          c.display_name ++ "\n" ++ "  Title: " ++ c.title ++ "\n" ++ "  Description: " ++
          c.description ++ "\n" ++ "  Status: " ++ statusText c ++ "\n" ++
          "  Channel URL: " ++ c.channel_url ++ "\n" ++ "  Channel Identifier: " ++
          c.channel_identifier ++ "\n" ++ "  Service ID: " ++ c.service_id ++ "\n").data,
        [], ?_⟩⟩ <;>
      simp only [ChannelWithMeta.str, String.data_append, List.append_assoc,
        List.append_nil]
  · intro c hnl
    have hcount : 1 ≤ c.title.data.count '\n' := by
      have := List.count_pos_iff.2 hnl
      omega
    rw [length_splitLines, str_data]
    simp only [joinWith, List.count_append, List.append_assoc]
    have hsep : List.count '\n' ['\n'] = 1 := by decide
    have h0 : List.count '\n' "Channel Information:".data = 0 := by decide
    have h1 : List.count '\n' "  ID: ".data = 0 := by decide
    have h2 : List.count '\n' "  Display Name: ".data = 0 := by decide
    have h3 : List.count '\n' "  Title: ".data = 0 := by decide
    have h4 : List.count '\n' "  Description: ".data = 0 := by decide
    have h5 : List.count '\n' "  Status: ".data = 0 := by decide
    have h6 : List.count '\n' "  Channel URL: ".data = 0 := by decide
    have h7 : List.count '\n' "  Channel Identifier: ".data = 0 := by decide
    have h8 : List.count '\n' "  Service ID: ".data = 0 := by decide
    have h9 : List.count '\n' "  User ID: ".data = 0 := by decide
    omega

/-- C10 witness: the newline-propagation conjunct instantiated at a record
whose `title` contains a newline. -/
theorem spec_C10_witness :
    10 < (splitLines (ChannelWithMeta.str newlineRecord).data).length :=
  spec_C10.2 newlineRecord (by decide)
